import Mathlib

/-!
Shallow embedding of the configuration-resolution subsystem of
fuulish/vscode-cpptools, covering:

* `src/LanguageServer/customProviders.ts` — the custom configuration
  provider registry (`CustomProviderWrapper`,
  `CustomConfigurationProviderCollection`);
* `src/LanguageServer/configurations.ts` — the configuration store
  (`CppProperties`): list-property resolution, version migration,
  properties-file parsing and change reconciliation.

Modelling conventions (mirroring the TypeScript semantics):

* optional string fields that the source tests for truthiness
  (`provider.extensionId`, `provider.name`) are modelled as `String`,
  where `""` stands for both the absent (`undefined`) and the empty
  string value — the source distinguishes the two nowhere (truthiness
  and string comparison against non-empty strings treat them alike);
* fields the source compares against `undefined` with `===` are
  modelled as `Option`;
* a JavaScript `Map` is modelled as an association list in insertion
  order; `Map.set` on an existing key replaces the value in place,
  which preserves iteration order, exactly as in JavaScript;
* methods on a provider object (`canProvideConfiguration`, `dispose`,
  …) matter to the registry only through their presence, so they are
  modelled as `Bool` capability flags.
-/

/-- `Version` enum of the vscode-cpptools API: a numeric enum
(`v0 = 0`, `v1 = 1`, `v2 = 2`). -/
abbrev Version := Nat

def Version.v0 : Version := 0

def Version.v1 : Version := 1

def Version.v2 : Version := 2

/-- A third-party `CustomConfigurationProvider` object as the registry
sees it: its identifying strings plus presence flags for the methods
the registry checks for. `extensionId = ""` models an absent
`extensionId`. -/
structure Provider where
  name : String := ""
  extensionId : String := ""
  hasCanProvideConfiguration : Bool := true
  hasProvideConfigurations : Bool := true
  hasDispose : Bool := false
  hasCanProvideBrowseConfiguration : Bool := false
  hasProvideBrowseConfiguration : Bool := false
deriving DecidableEq, Repr

/-- State of a `CustomProviderWrapper` (customProviders.ts, lines 23–90):
the wrapped provider plus the private fields set by the constructor. -/
structure CustomProviderWrapper where
  provider : Provider
  _isReady : Bool
  _version : Version
deriving DecidableEq, Repr

/-- The `CustomProviderWrapper` constructor (customProviders.ts, lines
28–35): `_isReady` is initialised from the version *passed in*; a v0
provider that nonetheless carries an `extensionId` is promoted to v1. -/
def newCustomProviderWrapper (provider : Provider) (version : Version) :
    CustomProviderWrapper :=
  { provider := provider
    _isReady := decide (version < Version.v2)
    _version := if provider.extensionId != "" && version == Version.v0
                then Version.v1 else version }

/-- Getter `isReady` (customProviders.ts, lines 37–39). -/
def CustomProviderWrapper.isReady (w : CustomProviderWrapper) : Bool :=
  w._isReady

/-- Getter `isValid` (customProviders.ts, lines 45–54). -/
def CustomProviderWrapper.isValid (w : CustomProviderWrapper) : Bool :=
  let p := w.provider
  let valid := p.name != "" && p.hasCanProvideConfiguration
      && p.hasProvideConfigurations
  let valid := if valid && decide (Version.v0 < w._version)
      then p.extensionId != "" && p.hasDispose else valid
  let valid := if valid && decide (Version.v1 < w._version)
      then p.hasCanProvideBrowseConfiguration
          && p.hasProvideBrowseConfiguration
      else valid
  valid

/-- Getter `name` (customProviders.ts, lines 60–62). -/
def CustomProviderWrapper.name (w : CustomProviderWrapper) : String :=
  w.provider.name

/-- Getter `extensionId` (customProviders.ts, lines 64–66): a v0 wrapper
synthesizes its identity from the provider name. -/
def CustomProviderWrapper.extensionId (w : CustomProviderWrapper) : String :=
  if w._version == Version.v0 then w.provider.name else w.provider.extensionId

/-- The observable effect of `dispose` (customProviders.ts, lines
85–89): the wrapped provider's own `dispose` is invoked iff the wrapper
version is not v0 (otherwise the call is a no-op). -/
def CustomProviderWrapper.disposeDelegates (w : CustomProviderWrapper) : Bool :=
  w._version != Version.v0

/-- The `providers` map of `CustomConfigurationProviderCollection`:
a JavaScript `Map<string, CustomProviderWrapper>` in insertion order. -/
abbrev ProviderMap := List (String × CustomProviderWrapper)

/-- `Map.get`: first entry with the given key. -/
def mapGet (m : ProviderMap) (k : String) : Option CustomProviderWrapper :=
  (m.find? (fun e => e.1 == k)).map (·.2)

/-- `Map.has`. -/
def mapHas (m : ProviderMap) (k : String) : Bool :=
  (mapGet m k).isSome

/-- `Map.set`: replace in place when the key exists (JavaScript `Map`
keeps the original insertion position), append otherwise. -/
def mapSet (m : ProviderMap) (k : String) (v : CustomProviderWrapper) :
    ProviderMap :=
  if mapHas m k then m.map (fun e => if e.1 == k then (k, v) else e)
  else m ++ [(k, v)]

/-- `CustomConfigurationProviderCollection.add` (customProviders.ts,
lines 138–162). The ambient editor setting
`new CppSettings().intelliSenseEngine` is passed in as
`intelliSenseEngine`. Returns the boolean result together with the
updated provider map. The duplicate branch logs
"has already been registered" and leaves the map unchanged. -/
def CustomConfigurationProviderCollection.add (intelliSenseEngine : String)
    (providers : ProviderMap) (provider : Provider) (version : Version) :
    Bool × ProviderMap :=
  if intelliSenseEngine == "Disabled" then (false, providers)
  else
    let wrapper := newCustomProviderWrapper provider version
    if !wrapper.isValid then (false, providers)
    else
      let exists0 := mapHas providers wrapper.extensionId
      let exists1 :=
        if exists0 then
          match mapGet providers wrapper.extensionId with
          | some existing =>
              existing._version == Version.v0
                && wrapper._version == Version.v0
          | none => exists0
        else exists0
      if !exists1 then (true, mapSet providers wrapper.extensionId wrapper)
      else (false, providers)

/-- `CustomConfigurationProviderCollection.checkId` (customProviders.ts,
lines 186–208). `forEach` visits the wrappers in insertion order; the
fold accumulates the `found` list and the `noUpdate` flag exactly as
the loop body does. -/
def CustomConfigurationProviderCollection.checkId (providers : ProviderMap)
    (providerId : String) : String :=
  if providerId == "" then providerId
  else
    let st := providers.foldl
      (fun (acc : List CustomProviderWrapper × Bool) e =>
        let provider := e.2
        if provider.extensionId == providerId then (acc.1, true)
        else if provider.name == providerId
            && provider._version != Version.v0 then
          (acc.1 ++ [provider], acc.2)
        else acc)
      ([], false)
    if st.2 then providerId
    else
      match st.1 with
      | [f] => f.extensionId
      | _ => providerId

/-!
Embedding of `src/LanguageServer/configurations.ts`.
-/

/-- `Browse` sub-record (configurations.ts, lines 62–66). The
`limitSymbolsToIncludedHeaders` field may be a boolean or a string in
the source; only its presence matters to the code modelled here. -/
structure Browse where
  path : Option (List String) := none
  limitSymbolsToIncludedHeaders : Option Bool := none
  databaseFilename : Option String := none
deriving DecidableEq, Repr

/-- One named configuration entry (configurations.ts, lines 46–60).
`none` models an absent (`undefined`) field. -/
structure Configuration where
  name : String := ""
  compilerPath : Option String := none
  cStandard : Option String := none
  cppStandard : Option String := none
  includePath : Option (List String) := none
  macFrameworkPath : Option (List String) := none
  windowsSdkVersion : Option String := none
  defines : Option (List String) := none
  intelliSenseMode : Option String := none
  compileCommands : Option String := none
  forcedInclude : Option (List String) := none
  configurationProvider : Option String := none
  browse : Option Browse := none
deriving DecidableEq, Repr

/-- A value of the user-supplied `env` mapping: a string or a string
list. -/
inductive EnvValue where
  | str : String → EnvValue
  | strs : List String → EnvValue
deriving DecidableEq, Repr

/-- The persisted document shape (configurations.ts, lines 40–44). -/
structure ConfigurationJson where
  configurations : List Configuration
  env : Option (List (String × EnvValue)) := none
  version : Option Int := none
deriving DecidableEq, Repr

/-- `const configVersion: number = 4` (configurations.ts, line 16). -/
def configVersion : Int := 4

/-- Truthiness of an optional string value: JavaScript treats both
`null`/`undefined` and `""` as falsy. -/
def truthyOpt : Option String → Bool
  | none => false
  | some s => s != ""

/-- Modelled from the spec: the Settings Facade (`CppSettings`, a file
of this repository that is not under src/). Per the spec it "exposes
one typed read-only accessor per defaultable property …, each
returning either a concrete value or a sentinel meaning unset"; only
the accessors read by the code modelled here are included, with `none`
as the unset sentinel. -/
structure CppSettingsModel where
  defaultIntelliSenseMode : Option String := none
  defaultCompilerPath : Option String := none
  defaultCStandard : Option String := none
  defaultCppStandard : Option String := none
deriving DecidableEq, Repr

/-- The ambient inputs of `CppProperties` that the modelled operations
read but never write: the host platform (`process.platform`), the
settings facade, the compiler-detected defaults (the private
`defaultCompilerPath`/`defaultCStandard`/`defaultCppStandard` fields)
and the global provider registry. -/
structure Ctx where
  platform : String := "linux"
  settings : CppSettingsModel := {}
  defaultCompilerPath : Option String := none
  defaultCStandard : Option String := none
  defaultCppStandard : Option String := none
  providers : ProviderMap := []
deriving Repr

/-- The mutable fields of `CppProperties` that the modelled operations
touch: the in-memory document (initialised to `null`, modelled `none`),
the persisted current configuration index, and the
`configurationIncomplete` flag. -/
structure PropState where
  configurationJson : Option ConfigurationJson := none
  currentConfigurationIndex : Int := -1
  configurationIncomplete : Bool := true
deriving DecidableEq, Repr

/-- `CppProperties.resolveDefaults` (configurations.ts, lines 396–410):
expand each literal default token in place to the settings-level
default list (`none` models the `null` default of `string[]`
settings), passing other entries through; `forEach` with
`result.concat`/`result.push` is a left fold over append. -/
def resolveDefaults (entries : List String)
    (defaultValue : Option (List String)) : List String :=
  entries.foldl
    (fun result entry =>
      if entry == "${default}" then
        match defaultValue with
        | some d => result ++ d
        | none => result
      else result ++ [entry])
    []

/-- Split a character list at every ';', JavaScript
`String.prototype.split(";")` style (the empty string yields one empty
group, a trailing separator yields a trailing empty group). -/
def splitSemiChars : List Char → List (List Char)
  | [] => [[]]
  | c :: rest =>
      let r := splitSemiChars rest
      if c = ';' then [] :: r
      else
        match r with
        | [] => [[c]]
        | g :: gs => (c :: g) :: gs

/-- JavaScript `s.split(";")`. -/
def splitOnSemicolon (s : String) : List String :=
  (splitSemiChars s.data).map List.asString

/-- `CppProperties.resolveAndSplit` (configurations.ts, lines 412–422).
`util.resolveVariables (·, env)` lives outside src/, so the
already-curried resolver is taken as the function argument `rv`; each
entry is variable-resolved, split on ";", stripped of empty pieces,
default-expanded and concatenated. -/
def resolveAndSplit (rv : String → String) (paths : Option (List String))
    (defaultValue : Option (List String)) : List String :=
  match paths with
  | none => []
  | some ps =>
      ps.foldl
        (fun result entry =>
          let entries := (splitOnSemicolon (rv entry)).filter (fun e => e != "")
          result ++ resolveDefaults entries defaultValue)
        []

/-- Pure rewording of the spec for the list-property merge ("each entry
is variable-resolved and default-token entries are expanded in place to
the settings-level default sequence (dropped if none), with entries
concatenated in order"), stated by structural recursion; to be compared
with `resolveDefaults`. -/
def resolveDefaultsSpec (defaultValue : Option (List String)) :
    List String → List String
  | [] => []
  | entry :: rest =>
      (if entry == "${default}" then defaultValue.getD [] else [entry])
        ++ resolveDefaultsSpec defaultValue rest

/-- Pure rewording of the spec for `resolveAndSplit`, by structural
recursion over the entry list. -/
def resolveAndSplitSpec (rv : String → String)
    (defaultValue : Option (List String)) : List String → List String
  | [] => []
  | entry :: rest =>
      resolveDefaultsSpec defaultValue
          ((splitOnSemicolon (rv entry)).filter (fun e => e != ""))
        ++ resolveAndSplitSpec rv defaultValue rest

/-- The platform display name used by `getConfigIndexForPlatform` and
`getDefaultConfig` (configurations.ts, lines 23–31 and 300–308). -/
def platformName (ctx : Ctx) : String :=
  if ctx.platform == "darwin" then "Mac"
  else if ctx.platform == "win32" then "Win32"
  else "Linux"

/-- `getDefaultConfig` (configurations.ts, lines 23–31). -/
def getDefaultConfig (ctx : Ctx) : Configuration :=
  if ctx.platform == "darwin" then { name := "Mac" }
  else if ctx.platform == "win32" then { name := "Win32" }
  else { name := "Linux" }

/-- `getDefaultCppProperties` (configurations.ts, lines 33–38). -/
def getDefaultCppProperties (ctx : Ctx) : ConfigurationJson :=
  { configurations := [getDefaultConfig ctx], version := some configVersion }

/-- `CppProperties.getConfigIndexForPlatform` (configurations.ts, lines
300–315): index of the first configuration named after the host
platform, else `length - 1`. (At every call site the argument is the
same object as `this.configurationJson`, so the loop bound and the
array accesses coincide.) -/
def getConfigIndexForPlatform (ctx : Ctx) (config : ConfigurationJson) : Int :=
  match config.configurations.findIdx? (fun c => c.name == platformName ctx) with
  | some i => (i : Int)
  | none => (config.configurations.length : Int) - 1

/-- `CppProperties.getIntelliSenseModeForPlatform` (configurations.ts,
lines 317–333). -/
def getIntelliSenseModeForPlatform (ctx : Ctx) (name : String) : String :=
  if name == "Linux" then "gcc-x64"
  else if name == "Mac" then "clang-x64"
  else if name == "Win32" then "msvc-x64"
  else if ctx.platform == "win32" then "msvc-x64"
  else if ctx.platform == "darwin" then "clang-x64"
  else "gcc-x64"

/-- `CppProperties.updateToVersion2` (configurations.ts, lines
670–674): a marker bump only. -/
def updateToVersion2 (doc : ConfigurationJson) : ConfigurationJson :=
  { doc with version := some 2 }

/-- Loop body of `updateToVersion3` (configurations.ts, lines 678–689):
back-fill the two fixed macOS framework paths when the configuration
is named "Mac", or is a non-reserved name on a Mac host, and has no
framework path yet. -/
def migrateConfigV3 (ctx : Ctx) (config : Configuration) : Configuration :=
  if config.name == "Mac"
      || (ctx.platform == "darwin" && config.name != "Win32"
          && config.name != "Linux") then
    if config.macFrameworkPath.isNone then
      let fixedPaths := some ["/System/Library/Frameworks", "/Library/Frameworks"]
      { config with macFrameworkPath := fixedPaths }
    else config
  else config

/-- `CppProperties.updateToVersion3` (configurations.ts, lines 676–690). -/
def updateToVersion3 (ctx : Ctx) (doc : ConfigurationJson) : ConfigurationJson :=
  { doc with version := some 3,
             configurations := doc.configurations.map (migrateConfigV3 ctx) }

/-- First statement of the v4 loop body (configurations.ts, lines
700–702): back-fill the IntelliSense mode, guarded on the field being
absent and no live settings-level default existing. -/
def migrateV4Mode (ctx : Ctx) (config : Configuration) : Configuration :=
  if config.intelliSenseMode.isNone
      && !truthyOpt ctx.settings.defaultIntelliSenseMode then
    let mode := some (getIntelliSenseModeForPlatform ctx config.name)
    { config with intelliSenseMode := mode }
  else config

/-- Second statement of the v4 loop body (configurations.ts, lines
703–706): back-fill the compiler path. -/
def migrateV4Compiler (ctx : Ctx) (config : Configuration) : Configuration :=
  if config.compilerPath.isNone && truthyOpt ctx.defaultCompilerPath
      && !truthyOpt config.compileCommands
      && !truthyOpt ctx.settings.defaultCompilerPath then
    { config with compilerPath := ctx.defaultCompilerPath }
  else config

/-- Third statement of the v4 loop body (configurations.ts, lines
707–709): back-fill the C standard. -/
def migrateV4CStandard (ctx : Ctx) (config : Configuration) : Configuration :=
  if !truthyOpt config.cStandard && truthyOpt ctx.defaultCStandard
      && !truthyOpt ctx.settings.defaultCStandard then
    { config with cStandard := ctx.defaultCStandard }
  else config

/-- Fourth statement of the v4 loop body (configurations.ts, lines
710–712): back-fill the C++ standard. -/
def migrateV4CppStandard (ctx : Ctx) (config : Configuration) : Configuration :=
  if !truthyOpt config.cppStandard && truthyOpt ctx.defaultCppStandard
      && !truthyOpt ctx.settings.defaultCppStandard then
    { config with cppStandard := ctx.defaultCppStandard }
  else config

/-- The whole v4 loop body: the four back-fills in statement order. -/
def migrateConfigV4 (ctx : Ctx) (config : Configuration) : Configuration :=
  migrateV4CppStandard ctx (migrateV4CStandard ctx
    (migrateV4Compiler ctx (migrateV4Mode ctx config)))

/-- `CppProperties.updateToVersion4` (configurations.ts, lines 692–714). -/
def updateToVersion4 (ctx : Ctx) (doc : ConfigurationJson) : ConfigurationJson :=
  { doc with version := some 4,
             configurations := doc.configurations.map (migrateConfigV4 ctx) }

/-- What `fs.readFileSync` + `JSON.parse` can yield for the properties
file: the empty string (which `parsePropertiesFile` returns on before
attempting to parse), text that `JSON.parse` throws on, text that
parses but is not an object carrying a `configurations` array, or a
well-shaped document. -/
inductive FileContent where
  | emptyStr : FileContent
  | malformed : FileContent
  | notAnObject : FileContent
  | parsed : ConfigurationJson → FileContent
deriving DecidableEq, Repr

/-- Whether `JSON.parse` rejects the content. `JSON.parse` throws a
syntax error on the empty string just as on any other malformed text. -/
def failsJsonParse : FileContent → Bool
  | .emptyStr => true
  | .malformed => true
  | .notAnObject => false
  | .parsed _ => false

/-- Exceptions thrown by `parsePropertiesFile`: the `JSON.parse` syntax
error, or the structural "There must be at least one configuration
present in the array." error (configurations.ts, line 601). Both are
surfaced via `showErrorMessage` and re-thrown (lines 664–667). -/
inductive ParseFailure where
  | syntaxError : ParseFailure
  | structuralError : ParseFailure
deriving DecidableEq, Repr

/-- Failures that can escape `handleConfigurationChange`: a re-thrown
parse failure, or the TypeError from dereferencing a `null`
`configurationJson` (configurations.ts line 576 reads
`this.configurationJson.configurations` whenever a file is present,
and line 455 does so unconditionally; the guards on lines 574 and 583
compare against `undefined`, which the field — initialised to `null` —
never is). -/
inductive RuntimeFailure where
  | parseFailure : ParseFailure → RuntimeFailure
  | nullAccess : RuntimeFailure
deriving DecidableEq, Repr

/-- Keys stripped from a user-supplied `env` mapping
(configurations.ts, lines 626–632). -/
def stripReservedEnv (env : List (String × EnvValue)) :
    List (String × EnvValue) :=
  env.filter (fun e =>
    e.1 != "workspaceRoot" && e.1 != "workspaceFolder"
      && e.1 != "workspaceFolderBasename" && e.1 != "default")

/-- The version-migration chain of `parsePropertiesFile`
(configurations.ts, lines 638–654): run only when the stored version
differs from `configVersion`; an undefined version is bumped to 2,
2 migrates to 3, 3 migrates to 4, and anything else is coerced to
`configVersion` with a user-facing warning. -/
def migrateVersion (ctx : Ctx) (doc : ConfigurationJson) : ConfigurationJson :=
  if doc.version == some configVersion then doc
  else
    let d := if doc.version.isNone then updateToVersion2 doc else doc
    let d := if d.version == some 2 then updateToVersion3 ctx d else d
    if d.version == some 3 then updateToVersion4 ctx d
    else { d with version := some configVersion }

/-- `CppProperties.parsePropertiesFile` (configurations.ts, lines
591–668), as a function from the prior state and the file content to
the state seen by the caller plus the exception, if any. Every
mutation of `this` in the source happens after the last `throw`
(the only throws are the `JSON.parse` failure on line 599 and the
structural check on line 600), so a thrown failure leaves the state
exactly as it was. The `dirty` rewrite of the file and the user-facing
messages are I/O without effect on this state. -/
def parsePropertiesFile (ctx : Ctx) (s : PropState) (content : FileContent) :
    PropState × Option ParseFailure :=
  match content with
  | .emptyStr => (s, none)
  | .malformed => (s, some .syntaxError)
  | .notAnObject => (s, some .structuralError)
  | .parsed newJson =>
    if newJson.configurations.length == 0 then (s, some .structuralError)
    else
      let idx0 : Int := s.currentConfigurationIndex
      let idx1 : Int :=
        match s.configurationJson with
        | some old =>
          if !s.configurationIncomplete && decide (0 ≤ idx0)
              && decide (idx0 < (old.configurations.length : Int)) then
            match old.configurations.get? idx0.toNat with
            | some sel =>
              match newJson.configurations.findIdx?
                  (fun c => c.name == sel.name) with
              | some i => (i : Int)
              | none => idx0
            | none => idx0
          else idx0
        | none => idx0
      let idx2 :=
        if decide (idx1 < 0)
            || decide ((newJson.configurations.length : Int) ≤ idx1) then
          getConfigIndexForPlatform ctx newJson
        else idx1
      let correctedConfigs := newJson.configurations.map (fun c =>
        match c.configurationProvider with
        | none => c
        | some pid =>
            let newId := CustomConfigurationProviderCollection.checkId
              ctx.providers pid
            { c with configurationProvider := some newId })
      let env2 := newJson.env.map stripReservedEnv
      let doc1 : ConfigurationJson :=
        { newJson with configurations := correctedConfigs, env := env2 }
      let doc2 := migrateVersion ctx doc1
      ({ configurationJson := some doc2
         currentConfigurationIndex := idx2
         configurationIncomplete := false }, none)

/-- `CppProperties.resetToDefaultSettings` (configurations.ts, lines
205–212). -/
def resetToDefaultSettings (ctx : Ctx) (resetIndex : Bool) (s : PropState) :
    PropState :=
  let json := getDefaultCppProperties ctx
  let idx :=
    if resetIndex || decide (s.currentConfigurationIndex < 0)
        || decide ((json.configurations.length : Int)
            ≤ s.currentConfigurationIndex) then
      getConfigIndexForPlatform ctx json
    else s.currentConfigurationIndex
  { configurationJson := some json
    currentConfigurationIndex := idx
    configurationIncomplete := true }

/-- `CppProperties.handleConfigurationChange` (configurations.ts, lines
568–589), as a function of whether a properties file is present
(`this.propertiesFile`), its content, and the prior state.

* With a file present it re-parses; a parse failure is re-thrown out of
  `handleConfigurationChange` (there is no catch) with the state
  untouched, and on success the index is re-normalized against the
  freshly parsed list. The guard on line 574 (`!== undefined`) is
  always true — the field is `null` or an object, never `undefined` —
  so a `null` document would be dereferenced on line 576.
* The reset on line 584 is dead code for the same reason (the guard on
  line 583 is `=== undefined`); with a `null` document the code instead
  fails on line 455 of `updateServerOnFolderSettingsChange`.
* `applyDefaultIncludePathsAndFrameworks` (lines 214–259) and
  `updateServerOnFolderSettingsChange` (lines 452–498) rewrite the
  *contents* of configuration entries; neither changes the number of
  configurations nor `currentConfigurationIndex`, which is what the
  theorems below are about, so their content rewriting is not modelled
  here. -/
def handleConfigurationChange (ctx : Ctx) (hasFile : Bool)
    (content : FileContent) (s : PropState) :
    PropState × Option RuntimeFailure :=
  let afterParse :=
    if hasFile then
      match parsePropertiesFile ctx s content with
      | (s1, some e) => (s1, some (RuntimeFailure.parseFailure e))
      | (s1, none) =>
        match s1.configurationJson with
        | none => (s1, some RuntimeFailure.nullAccess)
        | some cj =>
          if decide (s1.currentConfigurationIndex < 0)
              || decide ((cj.configurations.length : Int)
                  ≤ s1.currentConfigurationIndex) then
            ({ s1 with currentConfigurationIndex :=
                getConfigIndexForPlatform ctx cj }, none)
          else (s1, none)
    else (s, none)
  match afterParse with
  | (s1, some e) => (s1, some e)
  | (s1, none) =>
    match s1.configurationJson with
    | none => (s1, some RuntimeFailure.nullAccess)
    | some _ => (s1, none)

/-!
Concrete fixtures used by the scenario theorems and witnesses below.
-/

/-- A legacy (v0) provider with no explicit identity. -/
def pLegacy1 : Provider := { name := "P" }

/-- A second, distinct legacy (v0) provider under the same name. -/
def pLegacy2 : Provider := { name := "P", hasDispose := true }

/-- Registry holding `pLegacy1` registered at v0. -/
def regP : ProviderMap :=
  (CustomConfigurationProviderCollection.add "Default" [] pLegacy1 Version.v0).2

/-- A v1 provider with explicit identity "ext.q". -/
def qV1a : Provider := { name := "A", extensionId := "ext.q", hasDispose := true }

/-- A distinct v1 provider with the same explicit identity "ext.q". -/
def qV1b : Provider := { name := "B", extensionId := "ext.q", hasDispose := true }

/-- Registry holding `qV1a` registered at v1. -/
def regQ : ProviderMap :=
  (CustomConfigurationProviderCollection.add "Default" [] qV1a Version.v1).2

/-- A v1 provider named "Foo" with identity "ext.foo". -/
def fooProvider : Provider :=
  { name := "Foo", extensionId := "ext.foo", hasDispose := true }

/-- Registry holding `fooProvider` registered at v1. -/
def regFoo : ProviderMap :=
  (CustomConfigurationProviderCollection.add "Default" [] fooProvider Version.v1).2

/-- A fully capable provider, used at v2. -/
def pBrowse : Provider :=
  { name := "R", extensionId := "ext.r", hasDispose := true,
    hasCanProvideBrowseConfiguration := true,
    hasProvideBrowseConfiguration := true }

/-- A default context: Linux host, no settings, no compiler defaults,
empty registry. -/
def ctxLinux : Ctx := {}

/-- A prior, completely parsed in-memory document. -/
def priorDoc : ConfigurationJson :=
  { configurations := [{ name := "Linux" }], version := some 4 }

/-- A prior store state holding `priorDoc` with configuration 0
selected and defaulting complete. -/
def sPrior : PropState :=
  { configurationJson := some priorDoc
    currentConfigurationIndex := 0
    configurationIncomplete := false }

/-- The spec scenario document with an empty configurations array. -/
def emptyCfgDoc : ConfigurationJson :=
  { configurations := [], version := some 4 }

/-- A re-parsed document in which the previously selected configuration
name ("Linux") now sits at index 1. -/
def newDoc : ConfigurationJson :=
  { configurations := [{ name := "Other" }, { name := "Linux" }]
    version := some 4 }

/-- The configuration entry selected in `sPrior`. -/
def selLinux : Configuration := { name := "Linux" }

/-- A prior state holding `priorDoc` with a stale out-of-range index. -/
def sStale : PropState :=
  { configurationJson := some priorDoc
    currentConfigurationIndex := 99
    configurationIncomplete := false }

/-!
Theorems for the claims.
-/

/-- Claim C9: for every provider and every version, `add` returns false
and registers nothing whenever the editor's IntelliSense-engine setting
is "Disabled" — an unconditional precondition that precedes capability
validation and duplicate detection. -/
theorem C9_disabled_engine_blocks_add (providers : ProviderMap)
    (provider : Provider) (version : Version) :
    CustomConfigurationProviderCollection.add "Disabled" providers provider
      version = (false, providers) := rfl

/-- Claim C7, counterexample: a provider registered at a legacy protocol
version (v0 or v1, both below v2, the version that introduced browse
configuration) starts with `isReady = true`, not `false` as claimed —
it is providers at v2 or later that start not ready. -/
theorem C7_counterexample :
    Version.v0 < Version.v2
    ∧ (newCustomProviderWrapper pLegacy1 Version.v0).isReady = true
    ∧ Version.v1 < Version.v2
    ∧ (newCustomProviderWrapper qV1a Version.v1).isReady = true := by
  decide

/-- Claim C7, amended: the wrapper's constructor sets `_isReady` to
`version < v2`, so a provider registered at v2 or later (the versions
that introduced browse configuration) starts in the not-ready state
until explicitly marked ready, while a legacy (below-v2) provider
starts ready. -/
theorem C7_amended_initial_readiness (p : Provider) (v : Version) :
    (Version.v2 ≤ v → (newCustomProviderWrapper p v).isReady = false)
    ∧ (v < Version.v2 → (newCustomProviderWrapper p v).isReady = true) := by
  constructor
  · intro h
    have h2 : (2 : Nat) ≤ v := h
    simp [newCustomProviderWrapper, CustomProviderWrapper.isReady, Version.v2]
    exact h2
  · intro h
    have h2 : v < (2 : Nat) := h
    simp [newCustomProviderWrapper, CustomProviderWrapper.isReady, Version.v2]
    exact h2

/-- Witness for the amended C7 theorem at version v2. -/
theorem C7_amended_initial_readiness_witness :
    Version.v2 ≤ Version.v2
    ∧ (newCustomProviderWrapper pBrowse Version.v2).isReady = false :=
  ⟨by decide, (C7_amended_initial_readiness pBrowse Version.v2).1 (by decide)⟩

/-- Claim C1, counterexample: the claim has the two duplicate paths
backwards. Registering a second legacy (v0) provider under the same
name is *rejected* — the second `add` logs the duplicate error, returns
false and leaves the registry unchanged (the first registration wins);
registering a second v1 provider with the same explicit identity is
*accepted* — the second `add` returns true and silently replaces the
first (the registry changes). -/
theorem C1_counterexample :
    (CustomConfigurationProviderCollection.add "Default" regP pLegacy2
        Version.v0).1 = false
    ∧ (CustomConfigurationProviderCollection.add "Default" regP pLegacy2
        Version.v0).2 = regP
    ∧ (CustomConfigurationProviderCollection.add "Default" regQ qV1b
        Version.v1).1 = true
    ∧ (CustomConfigurationProviderCollection.add "Default" regQ qV1b
        Version.v1).2 ≠ regQ := by
  decide

/-- Claim C1, amended: with IntelliSense enabled and a valid wrapper,
when the registry already holds an entry under the wrapper's identity,
`add` rejects the registration (returns false, logs a duplicate error,
registry unchanged) exactly when both the existing and the new entry
are legacy (v0, identity synthesized from the name); in every other
duplicate case the second registration silently wins — `add` returns
true and replaces the stored wrapper. -/
theorem C1_amended_duplicate_add (engine : String) (providers : ProviderMap)
    (p : Provider) (v : Version) (ex : CustomProviderWrapper)
    (heng : engine ≠ "Disabled")
    (hvalid : (newCustomProviderWrapper p v).isValid = true)
    (hget : mapGet providers (newCustomProviderWrapper p v).extensionId
      = some ex) :
    (ex._version = Version.v0 ∧ (newCustomProviderWrapper p v)._version
        = Version.v0 →
      CustomConfigurationProviderCollection.add engine providers p v
        = (false, providers))
    ∧ (¬(ex._version = Version.v0 ∧ (newCustomProviderWrapper p v)._version
        = Version.v0) →
      CustomConfigurationProviderCollection.add engine providers p v
        = (true, mapSet providers (newCustomProviderWrapper p v).extensionId
            (newCustomProviderWrapper p v))) := by
  have hhas : mapHas providers (newCustomProviderWrapper p v).extensionId
      = true := by
    simp [mapHas, hget]
  constructor
  · rintro ⟨h1, h2⟩
    simp [CustomConfigurationProviderCollection.add, heng, hvalid, hhas,
      hget, h1, h2]
  · intro h
    have hb : (ex._version == Version.v0
        && (newCustomProviderWrapper p v)._version == Version.v0) = false := by
      rcases Decidable.em (ex._version = Version.v0) with h1 | h1
      · rcases Decidable.em ((newCustomProviderWrapper p v)._version
            = Version.v0) with h2 | h2
        · exact absurd ⟨h1, h2⟩ h
        · simp [h2]
      · simp [h1]
    simp [CustomConfigurationProviderCollection.add, heng, hvalid, hhas,
      hget, hb]

/-- Witness for the amended C1 theorem: adding `qV1b` (same identity
"ext.q") to a registry holding `qV1a` at v1 silently overwrites. -/
theorem C1_amended_duplicate_add_witness :
    CustomConfigurationProviderCollection.add "Default" regQ qV1b Version.v1
      = (true, mapSet regQ (newCustomProviderWrapper qV1b Version.v1).extensionId
          (newCustomProviderWrapper qV1b Version.v1)) :=
  (C1_amended_duplicate_add "Default" regQ qV1b Version.v1
      (newCustomProviderWrapper qV1a Version.v1)
      (by decide) (by decide) (by decide)).2 (by decide)

/-- Claim C8: a provider passed to the wrapper constructor at declared
version v0 that nonetheless carries an `extensionId` is silently
promoted to v1: its stored version becomes v1, its canonical identity
is the `extensionId` (not the name), its validity additionally demands
the v1 capabilities (a truthy `extensionId`, which it has, and
`dispose`), and `dispose` calls through to the provider instead of
being a no-op. -/
theorem C8_v0_promotion (p : Provider) (h : p.extensionId ≠ "") :
    (newCustomProviderWrapper p Version.v0)._version = Version.v1
    ∧ (newCustomProviderWrapper p Version.v0).extensionId = p.extensionId
    ∧ (newCustomProviderWrapper p Version.v0).isValid
        = (p.name != "" && p.hasCanProvideConfiguration
            && p.hasProvideConfigurations && p.hasDispose)
    ∧ (newCustomProviderWrapper p Version.v0).disposeDelegates = true := by
  have hext : (p.extensionId != "") = true := by simp [h]
  have hver : (newCustomProviderWrapper p Version.v0)._version
      = Version.v1 := by
    simp [newCustomProviderWrapper, hext]
  refine ⟨hver, ?_, ?_, ?_⟩
  · rw [CustomProviderWrapper.extensionId, hver]
    simp [newCustomProviderWrapper, Version.v0, Version.v1]
  · rw [CustomProviderWrapper.isValid]
    rw [show (newCustomProviderWrapper p Version.v0).provider = p from rfl, hver]
    by_cases hA : (p.name != "" && p.hasCanProvideConfiguration
        && p.hasProvideConfigurations) = true
    · simp [hA, hext, Version.v0, Version.v1]
    · rw [Bool.not_eq_true] at hA
      simp [hA, Version.v0, Version.v1]
  · rw [CustomProviderWrapper.disposeDelegates, hver]
    decide

/-- Witness for C8 at a concrete v0 provider carrying identity
"ext.q". -/
theorem C8_v0_promotion_witness :
    qV1a.extensionId ≠ ""
    ∧ (newCustomProviderWrapper qV1a Version.v0)._version = Version.v1 :=
  ⟨by decide, (C8_v0_promotion qV1a (by decide)).1⟩

/-- Accumulator form of `resolveDefaults`: the source's
`forEach`/`push`/`concat` loop appends to the right of whatever has
been accumulated so far. -/
theorem resolveDefaults_foldl_eq (dv : Option (List String)) :
    ∀ (entries : List String) (acc : List String),
      entries.foldl
        (fun result entry =>
          if entry == "${default}" then
            match dv with
            | some d => result ++ d
            | none => result
          else result ++ [entry])
        acc = acc ++ resolveDefaultsSpec dv entries := by
  intro entries
  induction entries with
  | nil => intro acc; simp [resolveDefaultsSpec]
  | cons e rest ih =>
    intro acc
    rw [List.foldl_cons, ih, resolveDefaultsSpec]
    rw [← List.append_assoc]
    congr 1
    by_cases he : (e == "${default}") = true
    · rw [if_pos he, if_pos he]
      cases dv <;> simp [Option.getD]
    · rw [Bool.not_eq_true] at he
      rw [if_neg (by simp [he]), if_neg (by simp [he])]

/-- Accumulator form of `resolveAndSplit`. -/
theorem resolveAndSplit_foldl_eq (rv : String → String)
    (dv : Option (List String)) :
    ∀ (ps : List String) (acc : List String),
      ps.foldl
        (fun result entry =>
          result ++ resolveDefaults
            ((splitOnSemicolon (rv entry)).filter (fun e => e != "")) dv)
        acc = acc ++ resolveAndSplitSpec rv dv ps := by
  intro ps
  induction ps with
  | nil => intro acc; simp [resolveAndSplitSpec]
  | cons e rest ih =>
    intro acc
    rw [List.foldl_cons, ih, resolveAndSplitSpec]
    rw [← List.append_assoc]
    congr 2
    rw [resolveDefaults, resolveDefaults_foldl_eq, List.nil_append]

/-- Claim C4: the list-property merge variable-resolves each entry
(splitting semicolon lists and dropping empty pieces), expands every
default-token entry in place to the settings-level default sequence
(dropping the token when that default is null), and concatenates the
results in input order; in particular an include path list
["${default}", "/extra"] with settings default include path
["/sys/inc"] resolves to exactly ["/sys/inc", "/extra"]. -/
theorem C4_list_property_merge :
    (∀ (dv : Option (List String)) (entries : List String),
      resolveDefaults entries dv = resolveDefaultsSpec dv entries)
    ∧ (∀ (rv : String → String) (dv : Option (List String))
        (ps : List String),
      resolveAndSplit rv (some ps) dv = resolveAndSplitSpec rv dv ps)
    ∧ resolveAndSplit id (some ["${default}", "/extra"]) (some ["/sys/inc"])
        = ["/sys/inc", "/extra"] := by
  refine ⟨?_, ?_, ?_⟩
  · intro dv entries
    rw [resolveDefaults, resolveDefaults_foldl_eq, List.nil_append]
  · intro rv dv ps
    rw [resolveAndSplit, resolveAndSplit_foldl_eq, List.nil_append]
  · decide

/-- Claim C2, counterexample: an entirely empty properties file is
content that `JSON.parse` rejects (malformed structured data), yet
`parsePropertiesFile` returns on it *without* raising any error
(configurations.ts, lines 594–596) — contradicting the claim that
every malformed content raises an error to the caller. The prior
in-memory document is (as claimed) unchanged. -/
theorem C2_counterexample :
    failsJsonParse FileContent.emptyStr = true
    ∧ parsePropertiesFile ctxLinux sPrior FileContent.emptyStr
        = (sPrior, none) := by
  constructor
  · rfl
  · rfl

/-- Claim C2, amended: parsing *non-empty* malformed content, content
that parses to something without a configurations array, or a document
with zero configuration entries raises an error to the caller (after
surfacing it to the user) and leaves the previously held in-memory
state — in particular the in-memory document — unchanged; an entirely
empty file is skipped silently, also leaving the state unchanged; in
particular parsing {configurations: [], version: 4} raises the
structural error and does not replace the prior document. -/
theorem C2_amended_failed_parse_keeps_state :
    (∀ (ctx : Ctx) (s : PropState) (content : FileContent),
      (content = .malformed ∨ content = .notAnObject
        ∨ ∃ d, content = .parsed d ∧ d.configurations = []) →
      ∃ e, parsePropertiesFile ctx s content = (s, some e))
    ∧ (∀ (ctx : Ctx) (s : PropState),
        parsePropertiesFile ctx s .emptyStr = (s, none))
    ∧ parsePropertiesFile ctxLinux sPrior (.parsed emptyCfgDoc)
        = (sPrior, some .structuralError) := by
  refine ⟨?_, ?_, ?_⟩
  · intro ctx s content h
    rcases h with h | h | ⟨d, hd, hempty⟩
    · exact ⟨.syntaxError, by subst h; rfl⟩
    · exact ⟨.structuralError, by subst h; rfl⟩
    · refine ⟨.structuralError, ?_⟩
      rw [hd]
      simp [parsePropertiesFile, hempty]
  · intro ctx s
    rfl
  · rfl

/-- Witness for the amended C2 theorem: non-empty malformed content
raises an error and keeps the prior state. -/
theorem C2_amended_failed_parse_keeps_state_witness :
    ∃ e, parsePropertiesFile ctxLinux sPrior FileContent.malformed
      = (sPrior, some e) :=
  C2_amended_failed_parse_keeps_state.1 ctxLinux sPrior .malformed
    (Or.inl rfl)

/-- Characterization of the `forEach` accumulation in `checkId`: after
the loop, `found` is the in-order list of non-legacy wrappers whose
name (but not identity) equals the id, and `noUpdate` records whether
some wrapper's identity equals the id. -/
theorem checkId_foldl_eq (providerId : String) :
    ∀ (l : ProviderMap) (acc : List CustomProviderWrapper × Bool),
      l.foldl
        (fun (acc : List CustomProviderWrapper × Bool) e =>
          let provider := e.2
          if provider.extensionId == providerId then (acc.1, true)
          else if provider.name == providerId
              && provider._version != Version.v0 then
            (acc.1 ++ [provider], acc.2)
          else acc)
        acc
      = (acc.1 ++ (l.map (·.2)).filter
            (fun w => !(w.extensionId == providerId)
              && (w.name == providerId && w._version != Version.v0)),
         acc.2 || (l.map (·.2)).any (fun w => w.extensionId == providerId)) := by
  intro l
  induction l with
  | nil => intro acc; simp
  | cons e rest ih =>
    intro acc
    rw [List.foldl_cons, ih]
    by_cases hext : (e.2.extensionId == providerId) = true
    · simp [hext]
    · rw [Bool.not_eq_true] at hext
      by_cases hname : (e.2.name == providerId
          && e.2._version != Version.v0) = true
      · simp [hext, hname]
      · rw [Bool.not_eq_true] at hname
        simp [hext, hname]

/-- Unfolded form of `checkId`: the result in terms of the in-order
`found` filter and the `noUpdate` existence flag. -/
theorem checkId_eq (providers : ProviderMap) (id : String) :
    CustomConfigurationProviderCollection.checkId providers id =
      if id = "" then id
      else
        let found := (providers.map (·.2)).filter
          (fun w => !(w.extensionId == id)
            && (w.name == id && w._version != Version.v0))
        let noUpdate := (providers.map (·.2)).any
          (fun w => w.extensionId == id)
        if noUpdate then id
        else
          match found with
          | [f] => f.extensionId
          | _ => id := by
  rw [CustomConfigurationProviderCollection.checkId, checkId_foldl_eq]
  simp only [List.nil_append, Bool.false_or, beq_iff_eq]

/-- Claim C5: for every registry state (with the invariant, established
by `add`, that registered wrappers carry non-empty names and
identities), `checkId id` returns `id` unchanged when `id` equals some
registered provider's identity; otherwise, when exactly one non-legacy
(above-v0) registered provider has display name `id`, it returns that
provider's identity; on zero or more-than-one such matches it returns
`id` unchanged. In particular, after registering a v1 provider named
"Foo" with identity "ext.foo": checkId "Foo" = "ext.foo",
checkId "ext.foo" = "ext.foo", checkId "Bar" = "Bar". -/
theorem C5_checkId_resolution (providers : ProviderMap) (id : String)
    (hreg : ∀ e ∈ providers, e.2.name ≠ "" ∧ e.2.extensionId ≠ "") :
    ((∃ e ∈ providers, e.2.extensionId = id) →
      CustomConfigurationProviderCollection.checkId providers id = id)
    ∧ ((¬ ∃ e ∈ providers, e.2.extensionId = id) →
      ∀ w, (providers.map (·.2)).filter
          (fun x => x.name == id && x._version != Version.v0) = [w] →
        CustomConfigurationProviderCollection.checkId providers id
          = w.extensionId)
    ∧ ((¬ ∃ e ∈ providers, e.2.extensionId = id) →
      ((providers.map (·.2)).filter
          (fun x => x.name == id && x._version != Version.v0)).length ≠ 1 →
      CustomConfigurationProviderCollection.checkId providers id = id)
    ∧ CustomConfigurationProviderCollection.checkId regFoo "Foo" = "ext.foo"
    ∧ CustomConfigurationProviderCollection.checkId regFoo "ext.foo"
        = "ext.foo"
    ∧ CustomConfigurationProviderCollection.checkId regFoo "Bar" = "Bar" := by
  have hcongr : (¬ ∃ e ∈ providers, e.2.extensionId = id) →
      (providers.map (·.2)).filter
          (fun w => !(w.extensionId == id)
            && (w.name == id && w._version != Version.v0))
        = (providers.map (·.2)).filter
          (fun x => x.name == id && x._version != Version.v0) := by
    intro hnone
    apply List.filter_congr
    intro x hx
    obtain ⟨e, he, hex⟩ := List.mem_map.mp hx
    have hxne : x.extensionId ≠ id := fun hcontra =>
      hnone ⟨e, he, by rw [hex]; exact hcontra⟩
    simp [hxne]
  have hnoup : (¬ ∃ e ∈ providers, e.2.extensionId = id) →
      (providers.map (·.2)).any (fun w => w.extensionId == id) = false := by
    intro hnone
    rw [List.any_eq_false]
    intro x hx
    obtain ⟨e, he, hex⟩ := List.mem_map.mp hx
    simp only [beq_iff_eq]
    exact fun hcontra => hnone ⟨e, he, by rw [hex]; exact hcontra⟩
  refine ⟨?_, ?_, ?_, by decide, by decide, by decide⟩
  · rintro ⟨e, he, hid⟩
    have hne : id ≠ "" := fun h0 => (hreg e he).2 (hid.trans h0)
    have hany : (providers.map (·.2)).any (fun w => w.extensionId == id)
        = true := by
      rw [List.any_eq_true]
      exact ⟨e.2, List.mem_map_of_mem _ he, by simp [hid]⟩
    rw [checkId_eq, if_neg hne]
    simp only [hany, if_true]
  · intro hnone w hfilter
    have hwmem : w ∈ (providers.map (·.2)).filter
        (fun x => x.name == id && x._version != Version.v0) := by
      rw [hfilter]; exact List.mem_singleton.mpr rfl
    have hwpred := List.of_mem_filter hwmem
    have hwmap := List.mem_of_mem_filter hwmem
    obtain ⟨e, he, hew⟩ := List.mem_map.mp hwmap
    have hwname : w.name = id := by
      have := (Bool.and_eq_true _ _).mp hwpred
      exact beq_iff_eq.mp this.1
    have hne : id ≠ "" := by
      intro h0
      exact (hreg e he).1 (by rw [hew, hwname, h0])
    rw [checkId_eq, if_neg hne]
    simp only [hnoup hnone, if_false, Bool.false_eq_true]
    rw [hcongr hnone, hfilter]
  · intro hnone hlen
    by_cases hid0 : id = ""
    · rw [checkId_eq, if_pos hid0]
    · rw [checkId_eq, if_neg hid0]
      simp only [hnoup hnone, if_false, Bool.false_eq_true]
      rw [hcongr hnone]
      rcases hlist : (providers.map (·.2)).filter
          (fun x => x.name == id && x._version != Version.v0)
          with _ | ⟨a, _ | ⟨b, rest⟩⟩
      · rw [hlist]
      · exact absurd (by rw [hlist]; rfl) hlen
      · rw [hlist]

/-- Witness for C5: resolving an exact identity match in the concrete
registry holding a v1 provider "Foo"/"ext.foo". -/
theorem C5_checkId_resolution_witness :
    CustomConfigurationProviderCollection.checkId regFoo "ext.foo"
      = "ext.foo" :=
  (C5_checkId_resolution regFoo "ext.foo" (by decide)).1 (by decide)

/-- Fields not written by the IntelliSense-mode back-fill. -/
theorem migrateV4Mode_preserves (ctx : Ctx) (c : Configuration) :
    (migrateV4Mode ctx c).compilerPath = c.compilerPath
    ∧ (migrateV4Mode ctx c).compileCommands = c.compileCommands
    ∧ (migrateV4Mode ctx c).cStandard = c.cStandard
    ∧ (migrateV4Mode ctx c).cppStandard = c.cppStandard
    ∧ (migrateV4Mode ctx c).name = c.name
    ∧ (migrateV4Mode ctx c).macFrameworkPath = c.macFrameworkPath := by
  rw [migrateV4Mode]
  split_ifs <;> simp

/-- Fields not written by the compiler-path back-fill. -/
theorem migrateV4Compiler_preserves (ctx : Ctx) (c : Configuration) :
    (migrateV4Compiler ctx c).intelliSenseMode = c.intelliSenseMode
    ∧ (migrateV4Compiler ctx c).compileCommands = c.compileCommands
    ∧ (migrateV4Compiler ctx c).cStandard = c.cStandard
    ∧ (migrateV4Compiler ctx c).cppStandard = c.cppStandard
    ∧ (migrateV4Compiler ctx c).name = c.name
    ∧ (migrateV4Compiler ctx c).macFrameworkPath = c.macFrameworkPath := by
  rw [migrateV4Compiler]
  split_ifs <;> simp

/-- Fields not written by the C-standard back-fill. -/
theorem migrateV4CStandard_preserves (ctx : Ctx) (c : Configuration) :
    (migrateV4CStandard ctx c).intelliSenseMode = c.intelliSenseMode
    ∧ (migrateV4CStandard ctx c).compilerPath = c.compilerPath
    ∧ (migrateV4CStandard ctx c).compileCommands = c.compileCommands
    ∧ (migrateV4CStandard ctx c).cppStandard = c.cppStandard
    ∧ (migrateV4CStandard ctx c).name = c.name
    ∧ (migrateV4CStandard ctx c).macFrameworkPath = c.macFrameworkPath := by
  rw [migrateV4CStandard]
  split_ifs <;> simp

/-- Fields not written by the C++-standard back-fill. -/
theorem migrateV4CppStandard_preserves (ctx : Ctx) (c : Configuration) :
    (migrateV4CppStandard ctx c).intelliSenseMode = c.intelliSenseMode
    ∧ (migrateV4CppStandard ctx c).compilerPath = c.compilerPath
    ∧ (migrateV4CppStandard ctx c).compileCommands = c.compileCommands
    ∧ (migrateV4CppStandard ctx c).cStandard = c.cStandard
    ∧ (migrateV4CppStandard ctx c).name = c.name
    ∧ (migrateV4CppStandard ctx c).macFrameworkPath = c.macFrameworkPath := by
  rw [migrateV4CppStandard]
  split_ifs <;> simp

/-- The IntelliSense-mode back-fill is absorbed by a completed v4 pass:
either it has already filled the field (now present) or its guard was
false and the field is untouched by the later statements. -/
theorem migrateV4Mode_absorbed (ctx : Ctx) (c : Configuration) :
    migrateV4Mode ctx (migrateConfigV4 ctx c) = migrateConfigV4 ctx c := by
  have hmode : (migrateConfigV4 ctx c).intelliSenseMode
      = (migrateV4Mode ctx c).intelliSenseMode := by
    rw [migrateConfigV4]
    rw [(migrateV4CppStandard_preserves ctx _).1,
      (migrateV4CStandard_preserves ctx _).1,
      (migrateV4Compiler_preserves ctx _).1]
  by_cases h : (c.intelliSenseMode.isNone
      && !truthyOpt ctx.settings.defaultIntelliSenseMode) = true
  · have : (migrateV4Mode ctx c).intelliSenseMode
        = some (getIntelliSenseModeForPlatform ctx c.name) := by
      rw [migrateV4Mode, if_pos h]
    rw [migrateV4Mode, if_neg]
    rw [Bool.and_eq_true]
    rintro ⟨habs, -⟩
    rw [hmode, this] at habs
    simp at habs
  · have hsame : (migrateV4Mode ctx c).intelliSenseMode
        = c.intelliSenseMode := by
      rw [migrateV4Mode, if_neg h]
    rw [migrateV4Mode, if_neg]
    rw [hmode, hsame]
    exact h

/-- The compiler-path back-fill is absorbed by a completed v4 pass. -/
theorem migrateV4Compiler_absorbed (ctx : Ctx) (c : Configuration) :
    migrateV4Compiler ctx (migrateConfigV4 ctx c) = migrateConfigV4 ctx c := by
  have hcp : (migrateConfigV4 ctx c).compilerPath
      = (migrateV4Compiler ctx (migrateV4Mode ctx c)).compilerPath := by
    rw [migrateConfigV4]
    rw [(migrateV4CppStandard_preserves ctx _).2.1,
      (migrateV4CStandard_preserves ctx _).2.1]
  have hcc : (migrateConfigV4 ctx c).compileCommands = c.compileCommands := by
    rw [migrateConfigV4]
    rw [(migrateV4CppStandard_preserves ctx _).2.2.1,
      (migrateV4CStandard_preserves ctx _).2.2.1,
      (migrateV4Compiler_preserves ctx _).2.1,
      (migrateV4Mode_preserves ctx _).2.1]
  have hccm : (migrateV4Mode ctx c).compileCommands = c.compileCommands :=
    (migrateV4Mode_preserves ctx _).2.1
  by_cases h : ((migrateV4Mode ctx c).compilerPath.isNone
      && truthyOpt ctx.defaultCompilerPath
      && !truthyOpt (migrateV4Mode ctx c).compileCommands
      && !truthyOpt ctx.settings.defaultCompilerPath) = true
  · have hfill : (migrateV4Compiler ctx (migrateV4Mode ctx c)).compilerPath
        = ctx.defaultCompilerPath := by
      rw [migrateV4Compiler, if_pos h]
    have htruthy : truthyOpt ctx.defaultCompilerPath = true := by
      rw [Bool.and_eq_true, Bool.and_eq_true, Bool.and_eq_true] at h
      exact h.1.1.2
    rw [migrateV4Compiler, if_neg]
    rw [Bool.and_eq_true, Bool.and_eq_true, Bool.and_eq_true]
    rintro ⟨⟨⟨habs, -⟩, -⟩, -⟩
    rw [hcp, hfill] at habs
    clear hcc hccm
    rcases hd : ctx.defaultCompilerPath with _ | d
    · rw [hd] at htruthy
      simp [truthyOpt] at htruthy
    · rw [hd] at habs
      simp at habs
  · have hsame : (migrateV4Compiler ctx (migrateV4Mode ctx c)).compilerPath
        = (migrateV4Mode ctx c).compilerPath := by
      rw [migrateV4Compiler, if_neg h]
    rw [migrateV4Compiler, if_neg]
    rw [hcp, hsame, hcc, ← hccm]
    exact h

/-- The C-standard back-fill is absorbed by a completed v4 pass. -/
theorem migrateV4CStandard_absorbed (ctx : Ctx) (c : Configuration) :
    migrateV4CStandard ctx (migrateConfigV4 ctx c) = migrateConfigV4 ctx c := by
  have hcs : (migrateConfigV4 ctx c).cStandard
      = (migrateV4CStandard ctx (migrateV4Compiler ctx
          (migrateV4Mode ctx c))).cStandard := by
    rw [migrateConfigV4]
    rw [(migrateV4CppStandard_preserves ctx _).2.2.2.1]
  by_cases h : (!truthyOpt (migrateV4Compiler ctx
        (migrateV4Mode ctx c)).cStandard
      && truthyOpt ctx.defaultCStandard
      && !truthyOpt ctx.settings.defaultCStandard) = true
  · have hfill : (migrateV4CStandard ctx (migrateV4Compiler ctx
          (migrateV4Mode ctx c))).cStandard = ctx.defaultCStandard := by
      rw [migrateV4CStandard, if_pos h]
    have htruthy : truthyOpt ctx.defaultCStandard = true := by
      rw [Bool.and_eq_true, Bool.and_eq_true] at h
      exact h.1.2
    rw [migrateV4CStandard, if_neg]
    rw [Bool.and_eq_true, Bool.and_eq_true]
    rintro ⟨⟨habs, -⟩, -⟩
    rw [hcs, hfill] at habs
    rw [htruthy] at habs
    simp at habs
  · have hsame : (migrateV4CStandard ctx (migrateV4Compiler ctx
          (migrateV4Mode ctx c))).cStandard
        = (migrateV4Compiler ctx (migrateV4Mode ctx c)).cStandard := by
      rw [migrateV4CStandard, if_neg h]
    rw [migrateV4CStandard, if_neg]
    rw [hcs, hsame]
    exact h

/-- The C++-standard back-fill is absorbed by a completed v4 pass. -/
theorem migrateV4CppStandard_absorbed (ctx : Ctx) (c : Configuration) :
    migrateV4CppStandard ctx (migrateConfigV4 ctx c)
      = migrateConfigV4 ctx c := by
  by_cases h : (!truthyOpt (migrateV4CStandard ctx (migrateV4Compiler ctx
        (migrateV4Mode ctx c))).cppStandard
      && truthyOpt ctx.defaultCppStandard
      && !truthyOpt ctx.settings.defaultCppStandard) = true
  · have hfill : (migrateConfigV4 ctx c).cppStandard
        = ctx.defaultCppStandard := by
      rw [migrateConfigV4, migrateV4CppStandard, if_pos h]
    have htruthy : truthyOpt ctx.defaultCppStandard = true := by
      rw [Bool.and_eq_true, Bool.and_eq_true] at h
      exact h.1.2
    rw [migrateV4CppStandard, if_neg]
    rw [Bool.and_eq_true, Bool.and_eq_true]
    rintro ⟨⟨habs, -⟩, -⟩
    rw [hfill, htruthy] at habs
    simp at habs
  · have hsame : (migrateConfigV4 ctx c).cppStandard
        = (migrateV4CStandard ctx (migrateV4Compiler ctx
            (migrateV4Mode ctx c))).cppStandard := by
      rw [migrateConfigV4, migrateV4CppStandard, if_neg h]
    rw [migrateV4CppStandard, if_neg]
    rw [hsame]
    exact h

/-- A second run of the whole v4 loop body changes nothing. -/
theorem migrateConfigV4_idem (ctx : Ctx) (c : Configuration) :
    migrateConfigV4 ctx (migrateConfigV4 ctx c) = migrateConfigV4 ctx c := by
  conv_lhs => rw [migrateConfigV4]
  rw [migrateV4Mode_absorbed, migrateV4Compiler_absorbed,
    migrateV4CStandard_absorbed, migrateV4CppStandard_absorbed]

/-- The v4 loop body never changes a configuration's name. -/
theorem migrateConfigV4_name (ctx : Ctx) (c : Configuration) :
    (migrateConfigV4 ctx c).name = c.name := by
  rw [migrateConfigV4]
  rw [(migrateV4CppStandard_preserves ctx _).2.2.2.2.1,
    (migrateV4CStandard_preserves ctx _).2.2.2.2.1,
    (migrateV4Compiler_preserves ctx _).2.2.2.2.1,
    (migrateV4Mode_preserves ctx _).2.2.2.2.1]

/-- The v4 loop body never changes a configuration's framework path. -/
theorem migrateConfigV4_mac (ctx : Ctx) (c : Configuration) :
    (migrateConfigV4 ctx c).macFrameworkPath = c.macFrameworkPath := by
  rw [migrateConfigV4]
  rw [(migrateV4CppStandard_preserves ctx _).2.2.2.2.2,
    (migrateV4CStandard_preserves ctx _).2.2.2.2.2,
    (migrateV4Compiler_preserves ctx _).2.2.2.2.2,
    (migrateV4Mode_preserves ctx _).2.2.2.2.2]

/-- The v3 loop body never changes a configuration's name. -/
theorem migrateConfigV3_name (ctx : Ctx) (c : Configuration) :
    (migrateConfigV3 ctx c).name = c.name := by
  rw [migrateConfigV3]
  split_ifs <;> rfl

/-- The v3 back-fill is absorbed after a completed v3-then-v4 pass:
either the framework path was filled (now present) or its guard was
false and stays false. -/
theorem migrateConfigV3_absorbed (ctx : Ctx) (c : Configuration) :
    migrateConfigV3 ctx (migrateConfigV4 ctx (migrateConfigV3 ctx c))
      = migrateConfigV4 ctx (migrateConfigV3 ctx c) := by
  have hname : (migrateConfigV4 ctx (migrateConfigV3 ctx c)).name
      = c.name := by
    rw [migrateConfigV4_name, migrateConfigV3_name]
  have hmac : (migrateConfigV4 ctx (migrateConfigV3 ctx c)).macFrameworkPath
      = (migrateConfigV3 ctx c).macFrameworkPath := migrateConfigV4_mac ctx _
  by_cases hcond : (c.name == "Mac" || (ctx.platform == "darwin"
      && c.name != "Win32" && c.name != "Linux")) = true
  · by_cases hmacn : c.macFrameworkPath.isNone = true
    · have hfill : (migrateConfigV3 ctx c).macFrameworkPath
          = some ["/System/Library/Frameworks", "/Library/Frameworks"] := by
        rw [migrateConfigV3, if_pos hcond, if_pos hmacn]
      conv_lhs => rw [migrateConfigV3]
      rw [hname, hmac, if_pos hcond, if_neg]
      rw [hfill]
      simp
    · have hm3 : migrateConfigV3 ctx c = c := by
        rw [migrateConfigV3, if_pos hcond, if_neg hmacn]
      conv_lhs => rw [migrateConfigV3]
      rw [hname, hmac, if_pos hcond, if_neg]
      rw [hm3]
      exact hmacn
  · have hm3 : migrateConfigV3 ctx c = c := by
      rw [migrateConfigV3, if_neg hcond]
    conv_lhs => rw [migrateConfigV3]
    rw [hname, if_neg hcond]

/-- Claim C6: the version-migration chain is idempotent — applying the
2→3 and 3→4 migration steps a second time to an already-migrated
document yields the same document as applying them once, because each
injected value (macOS framework paths, IntelliSense mode, compiler
path, C/C++ standards) is only back-filled when the target field is
currently absent. -/
theorem C6_migration_idempotent (ctx : Ctx) (doc : ConfigurationJson) :
    updateToVersion4 ctx (updateToVersion3 ctx (updateToVersion4 ctx
      (updateToVersion3 ctx doc)))
      = updateToVersion4 ctx (updateToVersion3 ctx doc) := by
  rw [updateToVersion3, updateToVersion4, updateToVersion3, updateToVersion4]
  simp only [List.map_map]
  congr 1
  apply List.map_congr_left
  intro c _
  simp only [Function.comp]
  rw [migrateConfigV3_absorbed, migrateConfigV4_idem]

/-- Claim C10: on a successful re-parse after defaulting is complete,
the selection is preserved by configuration name, not position — when
the previously selected configuration's name occurs in the newly
parsed list, the current configuration index is remapped to the first
entry with that name (an index necessarily in range, which the
subsequent range normalization therefore keeps). -/
theorem C10_selection_preserved_by_name (ctx : Ctx) (s : PropState)
    (old newJson : ConfigurationJson) (sel : Configuration) (j : Nat)
    (hinc : s.configurationIncomplete = false)
    (hold : s.configurationJson = some old)
    (h0 : 0 ≤ s.currentConfigurationIndex)
    (hlt : s.currentConfigurationIndex < (old.configurations.length : Int))
    (hsel : old.configurations.get? s.currentConfigurationIndex.toNat
      = some sel)
    (hfind : newJson.configurations.findIdx? (fun c => c.name == sel.name)
      = some j) :
    (parsePropertiesFile ctx s (.parsed newJson)).2 = none
    ∧ (parsePropertiesFile ctx s
        (.parsed newJson)).1.currentConfigurationIndex = (j : Int) := by
  have hj : j < newJson.configurations.length :=
    (List.findIdx?_eq_some_iff_findIdx_eq.mp hfind).1
  have hne0 : newJson.configurations.length ≠ 0 := by omega
  have hne : (newJson.configurations.length == 0) = false := by
    simp [hne0]
  have hj0 : ¬ ((j : Int) < 0) := by omega
  have hjlt : ¬ ((newJson.configurations.length : Int) ≤ (j : Int)) := by
    omega
  rw [parsePropertiesFile]
  simp only [hne, Bool.false_eq_true, if_false, hold, hinc, hsel, hfind,
    Bool.not_false, Bool.true_and, decide_eq_true h0, decide_eq_true hlt,
    Bool.and_self, if_true, decide_eq_false hj0, decide_eq_false hjlt,
    Bool.or_self, if_false]
  exact ⟨trivial, trivial⟩

/-- Witness for C10: re-parsing `newDoc` over `sPrior` (selected name
"Linux", previously at index 0) remaps the selection to index 1. -/
theorem C10_selection_preserved_by_name_witness :
    (parsePropertiesFile ctxLinux sPrior (.parsed newDoc)).2 = none
    ∧ (parsePropertiesFile ctxLinux sPrior
        (.parsed newDoc)).1.currentConfigurationIndex = ((1 : Nat) : Int) :=
  C10_selection_preserved_by_name ctxLinux sPrior priorDoc newDoc selLinux 1
    (by decide) (by decide) (by decide) (by decide) (by decide) (by decide)

/-- For a non-empty configuration list, the platform-index fallback is
always in range: the first matching index when the platform name
occurs, `length - 1` otherwise. -/
theorem getConfigIndexForPlatform_in_range (ctx : Ctx)
    (doc : ConfigurationJson) (h : doc.configurations ≠ []) :
    0 ≤ getConfigIndexForPlatform ctx doc
    ∧ getConfigIndexForPlatform ctx doc
        < (doc.configurations.length : Int) := by
  have hlen : doc.configurations.length ≠ 0 := by
    intro h0
    exact h (List.length_eq_zero.mp h0)
  rw [getConfigIndexForPlatform]
  rcases hf : doc.configurations.findIdx? (fun c => c.name == platformName ctx)
      with _ | i
  · rw [hf]
    dsimp only
    constructor <;> omega
  · rw [hf]
    dsimp only
    have hi : i < doc.configurations.length :=
      (List.findIdx?_eq_some_iff_findIdx_eq.mp hf).1
    constructor <;> omega

/-- The migration chain never changes the number of configurations. -/
theorem migrateVersion_length (ctx : Ctx) (doc : ConfigurationJson) :
    (migrateVersion ctx doc).configurations.length
      = doc.configurations.length := by
  rw [migrateVersion]
  split_ifs <;>
      dsimp only <;>
    split_ifs <;>
      simp [updateToVersion2, updateToVersion3, updateToVersion4]

/-- A successful parse leaves a document with a non-empty configuration
list in memory (given the prior document, kept on the empty-file path,
had one). -/
theorem parse_ok_nonempty (ctx : Ctx) (s : PropState) (content : FileContent)
    (hjson : ∀ cj, s.configurationJson = some cj → cj.configurations ≠ []) :
    ∀ s1, parsePropertiesFile ctx s content = (s1, none) →
      ∀ cj, s1.configurationJson = some cj → cj.configurations ≠ [] := by
  intro s1 hp cj hcj
  cases content with
  | emptyStr =>
    rw [parsePropertiesFile] at hp
    cases hp
    exact hjson cj hcj
  | malformed => simp [parsePropertiesFile] at hp
  | notAnObject => simp [parsePropertiesFile] at hp
  | parsed newJson =>
    rw [parsePropertiesFile] at hp
    by_cases hz : (newJson.configurations.length == 0) = true
    · rw [if_pos hz] at hp
      cases hp
    · rw [if_neg hz] at hp
      have hs1 := congrArg Prod.fst hp
      simp only at hs1
      rw [← hs1] at hcj
      simp only [PropState.configurationJson] at hcj
      cases hcj
      intro hcontra
      have hlen := migrateVersion_length ctx
        { newJson with
          configurations := newJson.configurations.map (fun c =>
            match c.configurationProvider with
            | none => c
            | some pid =>
                let newId := CustomConfigurationProviderCollection.checkId
                  ctx.providers pid
                { c with configurationProvider := some newId })
          env := newJson.env.map stripReservedEnv }
      rw [hcontra] at hlen
      simp at hlen
      simp only [beq_iff_eq] at hz
      exact hz hlen.symm

/-- Reconciliation with no properties file and a `null` in-memory
document ends in the `null` dereference (configurations.ts, line 455). -/
theorem handle_noFile_none (ctx : Ctx) (content : FileContent) (s : PropState)
    (hj : s.configurationJson = none) :
    handleConfigurationChange ctx false content s
      = (s, some RuntimeFailure.nullAccess) := by
  have h : handleConfigurationChange ctx false content s
      = (match s.configurationJson with
         | none => (s, some RuntimeFailure.nullAccess)
         | some _ => (s, none)) := rfl
  rw [h, hj]

/-- Reconciliation with no properties file leaves the state untouched
when a document is held in memory. -/
theorem handle_noFile_some (ctx : Ctx) (content : FileContent) (s : PropState)
    (cj : ConfigurationJson) (hj : s.configurationJson = some cj) :
    handleConfigurationChange ctx false content s = (s, none) := by
  have h : handleConfigurationChange ctx false content s
      = (match s.configurationJson with
         | none => (s, some RuntimeFailure.nullAccess)
         | some _ => (s, none)) := rfl
  rw [h, hj]

/-- A parse failure propagates out of `handleConfigurationChange`
(nothing catches the re-thrown exception). -/
theorem handle_file_parseErr (ctx : Ctx) (content : FileContent)
    (s s1 : PropState) (e : ParseFailure)
    (hp : parsePropertiesFile ctx s content = (s1, some e)) :
    handleConfigurationChange ctx true content s
      = (s1, some (RuntimeFailure.parseFailure e)) := by
  rw [handleConfigurationChange, hp]
  simp

/-- After a successful parse that (on the empty-file path) left no
document in memory, reconciliation hits the `null` dereference. -/
theorem handle_file_ok_none (ctx : Ctx) (content : FileContent)
    (s s1 : PropState)
    (hp : parsePropertiesFile ctx s content = (s1, none))
    (hj : s1.configurationJson = none) :
    handleConfigurationChange ctx true content s
      = (s1, some RuntimeFailure.nullAccess) := by
  rw [handleConfigurationChange, hp]
  simp [hj]

/-- After a successful parse, an out-of-range index is replaced by the
platform index of the freshly held document. -/
theorem handle_file_ok_norm (ctx : Ctx) (content : FileContent)
    (s s1 : PropState) (cj : ConfigurationJson)
    (hp : parsePropertiesFile ctx s content = (s1, none))
    (hj : s1.configurationJson = some cj)
    (hc : (decide (s1.currentConfigurationIndex < 0)
        || decide ((cj.configurations.length : Int)
            ≤ s1.currentConfigurationIndex)) = true) :
    handleConfigurationChange ctx true content s
      = ({ s1 with currentConfigurationIndex :=
          getConfigIndexForPlatform ctx cj }, none) := by
  rw [handleConfigurationChange, hp]
  simp [hj, hc]

/-- After a successful parse, an in-range index is kept. -/
theorem handle_file_ok_keep (ctx : Ctx) (content : FileContent)
    (s s1 : PropState) (cj : ConfigurationJson)
    (hp : parsePropertiesFile ctx s content = (s1, none))
    (hj : s1.configurationJson = some cj)
    (hc : (decide (s1.currentConfigurationIndex < 0)
        || decide ((cj.configurations.length : Int)
            ≤ s1.currentConfigurationIndex)) = false) :
    handleConfigurationChange ctx true content s = (s1, none) := by
  rw [handleConfigurationChange, hp]
  simp [hj, hc]

/-- Claim C3: for every non-empty configuration list, after any
completed reconciliation (the `handleConfigurationChange` path,
including re-parse, and the reset-to-defaults path) the current
configuration index lies in [0, len): an index that is negative or
at-or-beyond the list length is replaced by `getConfigIndexForPlatform`,
which is the index of the first configuration bearing the host
platform's name, or len-1 when none does. The `handleConfigurationChange`
part is stated over every state the store can be in when the handler
runs: either a properties file is present (the re-parse branch
normalizes the index), or the held document's index is already in
range (the no-file branch of the handler touches neither). -/
theorem C3_index_in_range_after_reconciliation :
    (∀ (ctx : Ctx) (hasFile : Bool) (content : FileContent) (s : PropState),
      (∀ cj, s.configurationJson = some cj → cj.configurations ≠ []) →
      (hasFile = true
        ∨ ∃ cj, s.configurationJson = some cj
            ∧ 0 ≤ s.currentConfigurationIndex
            ∧ s.currentConfigurationIndex
                < (cj.configurations.length : Int)) →
      (handleConfigurationChange ctx hasFile content s).2 = none →
      ∃ cj, (handleConfigurationChange ctx hasFile content
          s).1.configurationJson = some cj
        ∧ 0 ≤ (handleConfigurationChange ctx hasFile content
            s).1.currentConfigurationIndex
        ∧ (handleConfigurationChange ctx hasFile content
            s).1.currentConfigurationIndex
          < (cj.configurations.length : Int))
    ∧ (∀ (ctx : Ctx) (resetIndex : Bool) (s : PropState),
        ∃ cj, (resetToDefaultSettings ctx resetIndex s).configurationJson
            = some cj
          ∧ 0 ≤ (resetToDefaultSettings ctx resetIndex
              s).currentConfigurationIndex
          ∧ (resetToDefaultSettings ctx resetIndex
              s).currentConfigurationIndex
            < (cj.configurations.length : Int))
    ∧ (∀ (ctx : Ctx) (doc : ConfigurationJson), doc.configurations ≠ [] →
        (0 ≤ getConfigIndexForPlatform ctx doc
          ∧ getConfigIndexForPlatform ctx doc
              < (doc.configurations.length : Int))
        ∧ (∀ i, doc.configurations.findIdx?
              (fun c => c.name == platformName ctx) = some i →
            getConfigIndexForPlatform ctx doc = (i : Int))
        ∧ (doc.configurations.findIdx?
              (fun c => c.name == platformName ctx) = none →
            getConfigIndexForPlatform ctx doc
              = (doc.configurations.length : Int) - 1)) := by
  refine ⟨?_, ?_, ?_⟩
  · intro ctx hasFile content s hjson hpre hok
    cases hasFile with
    | false =>
      rcases hj : s.configurationJson with _ | cj
      · rw [handle_noFile_none ctx content s hj] at hok
        simp at hok
      · rw [handle_noFile_some ctx content s cj hj] at hok ⊢
        rcases hpre with hfile | ⟨cj', hcj', h0, hlt⟩
        · exact absurd hfile Bool.false_ne_true
        · rw [hj] at hcj'
          injection hcj' with hcj'
          subst hcj'
          exact ⟨cj, hj, h0, hlt⟩
    | true =>
      rcases hp : parsePropertiesFile ctx s content with ⟨s1, oe⟩
      rcases oe with _ | e
      · have hne' := parse_ok_nonempty ctx s content hjson s1 hp
        rcases hj : s1.configurationJson with _ | cj
        · rw [handle_file_ok_none ctx content s s1 hp hj] at hok
          simp at hok
        · have hcne : cj.configurations ≠ [] := hne' cj hj
          by_cases hc : (decide (s1.currentConfigurationIndex < 0)
              || decide ((cj.configurations.length : Int)
                  ≤ s1.currentConfigurationIndex)) = true
          · rw [handle_file_ok_norm ctx content s s1 cj hp hj hc]
            dsimp only
            exact ⟨cj, hj, getConfigIndexForPlatform_in_range ctx cj hcne⟩
          · have hc' : (decide (s1.currentConfigurationIndex < 0)
                || decide ((cj.configurations.length : Int)
                    ≤ s1.currentConfigurationIndex)) = false :=
              Bool.eq_false_iff.mpr hc
            rw [handle_file_ok_keep ctx content s s1 cj hp hj hc']
            dsimp only
            refine ⟨cj, hj, ?_⟩
            simp only [Bool.or_eq_true, decide_eq_true_eq, not_or] at hc
            constructor <;> omega
      · rw [handle_file_parseErr ctx content s s1 e hp] at hok
        simp at hok
  · intro ctx resetIndex s
    have hne : (getDefaultCppProperties ctx).configurations ≠ [] := by
      rw [getDefaultCppProperties]
      intro hcontra
      simp at hcontra
    have hgc := getConfigIndexForPlatform_in_range ctx
      (getDefaultCppProperties ctx) hne
    by_cases hc : (resetIndex || decide (s.currentConfigurationIndex < 0)
        || decide (((getDefaultCppProperties ctx).configurations.length : Int)
            ≤ s.currentConfigurationIndex)) = true
    · have hr : resetToDefaultSettings ctx resetIndex s
          = { configurationJson := some (getDefaultCppProperties ctx)
              currentConfigurationIndex :=
                getConfigIndexForPlatform ctx (getDefaultCppProperties ctx)
              configurationIncomplete := true } := by
        rw [resetToDefaultSettings]
        simp [hc]
      rw [hr]
      exact ⟨getDefaultCppProperties ctx, rfl, hgc⟩
    · have hc' : (resetIndex || decide (s.currentConfigurationIndex < 0)
          || decide (((getDefaultCppProperties
              ctx).configurations.length : Int)
              ≤ s.currentConfigurationIndex)) = false :=
        Bool.eq_false_iff.mpr hc
      have hr : resetToDefaultSettings ctx resetIndex s
          = { configurationJson := some (getDefaultCppProperties ctx)
              currentConfigurationIndex := s.currentConfigurationIndex
              configurationIncomplete := true } := by
        rw [resetToDefaultSettings]
        simp [hc']
      rw [hr]
      dsimp only
      refine ⟨getDefaultCppProperties ctx, rfl, ?_⟩
      simp only [Bool.or_eq_true, decide_eq_true_eq, not_or] at hc
      constructor <;> omega
  · intro ctx doc hne
    refine ⟨getConfigIndexForPlatform_in_range ctx doc hne, ?_, ?_⟩
    · intro i hi
      rw [getConfigIndexForPlatform, hi]
    · intro hnone
      rw [getConfigIndexForPlatform, hnone]

/-- Witness for C3: a re-parse of `newDoc` over a state with stale
index 99 ends with the index in range. -/
theorem C3_index_in_range_witness :
    ∃ cj, (handleConfigurationChange ctxLinux true (.parsed newDoc)
        sStale).1.configurationJson = some cj
      ∧ 0 ≤ (handleConfigurationChange ctxLinux true (.parsed newDoc)
          sStale).1.currentConfigurationIndex
      ∧ (handleConfigurationChange ctxLinux true (.parsed newDoc)
          sStale).1.currentConfigurationIndex
        < (cj.configurations.length : Int) :=
  C3_index_in_range_after_reconciliation.1 ctxLinux true (.parsed newDoc)
    sStale (by intro cj h; injection h with h; subst h; decide)
    (Or.inl rfl) (by decide)
